import Mathlib

/-!
Verification development for the task-execution core of the repository
(the Pub/Sub worker in src/functions/worker.ts).

The worker is a Cloud Function that decodes a Pub/Sub envelope, builds a
per-invocation sandbox directory under /tmp named by the correlation id,
spawns the cursor-agent binary under a hard wall-clock deadline, and routes
captured stdout to a GitHub or Slack sink according to the reply descriptor.

The embedding below is a shallow model of that file: the decoded JSON
message is a structure, the asynchronous parts (process close or error
events, the watchdog timer, fetch outcomes) are made explicit inputs, and
the side effects performed by an invocation (mkdir, spawn, kill signals,
sink posts) are collected in an action trace. Each definition is annotated
with the source lines it embeds.
-/

namespace AgentWorker

/-- Model of msg.reply.targets as used by the worker: postGitHub reads
targets.repo, targets.pr and targets.token (worker.ts lines 83-96), the
slack branch reads targets.response_url (line 126). -/
structure Targets where
  repo : String
  pr : String
  token : String
  response_url : String
deriving DecidableEq

/-- Model of msg.reply: an optional type string and the targets object. -/
structure Reply where
  type : Option String
  targets : Targets
deriving DecidableEq

/-- Model of the decoded JSON message, restricted to the fields the worker
reads: msg.correlation_id (line 103), msg.agent?.name (line 108, where an
absent agent object and an absent name field coincide), msg.timeouts?.hard_seconds
(line 104, collapsed the same way), and msg.reply (lines 122-131). -/
structure Msg where
  correlation_id : Option String
  agentName : Option String
  hard_seconds : Option Int
  reply : Option Reply
deriving DecidableEq

/-- Model of the transport envelope seen by decode (worker.ts lines 24-28):
the optional chain event?.data?.message?.data either yields nothing
(missing), yields bytes that JSON.parse rejects (invalidJson), or yields
bytes that parse to a message (parsed). -/
inductive PubSubData
  | missing
  | invalidJson
  | parsed (msg : Msg)
deriving DecidableEq

/-- The CloudEvent argument of the worker entry point. -/
structure PubSubEvent where
  data : PubSubData
deriving DecidableEq

/-- Errors an invocation can throw or reject with, one constructor per
throw or reject site in worker.ts. -/
inductive WorkerError
  | malformedMessage
  | jsonParseError
  | missingApiKey
  | spawnFailed
  | timeout (hardSeconds : Int)
  | cursorFailed (message : String)
  | dispatchNetworkError
deriving DecidableEq

/-- Embeds decode (worker.ts lines 24-28): throws when the data field is
absent, propagates the JSON.parse exception when the payload is not valid
JSON, and otherwise returns the parsed message. No field of the parsed
message is inspected. -/
def decode (event : PubSubEvent) : Except WorkerError Msg :=
  match event.data with
  | .missing => .error .malformedMessage
  | .invalidJson => .error .jsonParseError
  | .parsed m => .ok m

/-- Embeds line 103, msg.correlation_id with a JS logical-or against
crypto.randomUUID(): the only falsy string is the empty string, so the
freshly generated uuid (passed here as an explicit input) is used exactly
when the field is absent or empty. -/
def effectiveCorrelationId (correlation_id : Option String) (uuid : String) : String :=
  match correlation_id with
  | none => uuid
  | some s => if s = "" then uuid else s

/-- Embeds line 104, msg.timeouts?.hard_seconds with JS nullish coalescing
against 900: only an absent value defaults, any present number is kept. -/
def effectiveHardSeconds (hard_seconds : Option Int) : Int :=
  hard_seconds.getD 900

/-- Embeds line 108, msg.agent?.name with JS nullish coalescing against
the string default. -/
def effectiveAgentName (agentName : Option String) : String :=
  agentName.getD "default"

/-- Embeds line 36: the sandbox is the /tmp directory named directly by the
correlation id, with no validation of the id. -/
def sandboxPath (correlationId : String) : String :=
  "/tmp/" ++ correlationId

/-- Embeds JS String.prototype.slice(0, n), as applied to stderr at line
120 and stdout at line 129: the first n characters, or the whole string
when it is shorter. -/
def jsSlice (s : String) (n : Nat) : String :=
  ⟨s.data.take n⟩

/-- Embeds JS String.prototype.startsWith, as applied at line 122. -/
def jsStartsWith (s pre : String) : Bool :=
  pre.data.isPrefixOf s.data

/-- The resolved value of the promise returned by runAgent (lines 39 and
70-73). -/
structure ExecResult where
  code : Int
  stdout : String
  stderr : String
deriving DecidableEq

/-- Which asynchronous event settles the runAgent promise. closes models a
close event carrying the (possibly null) exit code and the accumulated
stdout and stderr, delivered atMs milliseconds after the spawn; neverCloses
models a process still running when any timer fires; emitsError models an
error event (spawn failure) before the deadline. -/
inductive ProcBehavior
  | closes (exitCode : Option Int) (stdout stderr : String) (atMs : Nat)
  | neverCloses
  | emitsError
deriving DecidableEq

/-- Observable side effects of one invocation, in order: the recursive
mkdir of the sandbox (line 37), the spawn of cursor-agent with the name
and input arguments, cwd and HOME both the sandbox (lines 41-52 and
106-111), the kill calls made by the watchdog (killGroup is the
process.kill on the negated pid at line 61, killProc the fallback
proc.kill at line 63), and the sink posts (lines 84 and 126). -/
inductive Action
  | mkdirRecursive (path : String)
  | spawnAgent (name : String) (input : Msg) (cwd : String) (home : String)
  | killGroup
  | killProc
  | postGitHub (repo : String) (pr : String) (body : String)
  | postSlack (url : String) (text : String)
deriving DecidableEq

/-- The kill calls the watchdog makes on deadline expiry (lines 60-64): it
always calls process.kill on the whole group; only when that call throws
does it fall back to killing the top-level process directly. -/
def watchdogKills (groupKillSucceeds : Bool) : List Action :=
  if groupKillSucceeds then [.killGroup] else [.killGroup, .killProc]

/-- Embeds runAgent (worker.ts lines 30-81). The sandbox is created and the
process spawned unconditionally; then the promise is settled by whichever
of the close event, the error event, or the hardSeconds * 1000 ms watchdog
timer fires first. A close event before the deadline resolves with the exit
code, where a null code becomes 1 (line 72); otherwise the watchdog kills
the process group (falling back to the top-level process) and rejects with
the timeout error. An error event rejects with the spawn failure. -/
def runAgent (name : String) (input : Msg) (correlationId : String) (hardSeconds : Int)
    (proc : ProcBehavior) (groupKillSucceeds : Bool) :
    List Action × Except WorkerError ExecResult :=
  let sandbox := sandboxPath correlationId
  let setup : List Action := [.mkdirRecursive sandbox, .spawnAgent name input sandbox sandbox]
  match proc with
  | .emitsError => (setup, .error .spawnFailed)
  | .closes exitCode out err atMs =>
      if (atMs : Int) < hardSeconds * 1000 then
        (setup, .ok ⟨exitCode.getD 1, out, err⟩)
      else
        (setup ++ watchdogKills groupKillSucceeds, .error (.timeout hardSeconds))
  | .neverCloses =>
      (setup ++ watchdogKills groupKillSucceeds, .error (.timeout hardSeconds))

/-- Outcome of one fetch call: the promise rejects on a network error, and
resolves with a response of some status otherwise; node-fetch does not
reject on a non-2xx status, and the worker never inspects the response. -/
inductive FetchOutcome
  | networkError
  | response (status : Nat)
deriving DecidableEq

/-- Embeds postGitHub (lines 83-96): a single awaited fetch to the
issue-comments endpoint with the untouched body; a network error
propagates as a rejection, any response status is accepted silently. -/
def postGitHub (targets : Targets) (body : String) (net : FetchOutcome) :
    List Action × Except WorkerError Unit :=
  match net with
  | .networkError => ([], .error .dispatchNetworkError)
  | .response _ => ([.postGitHub targets.repo targets.pr body], .ok ())

/-- Embeds the two sink branches of the handler (lines 122-131): first, if
the reply type starts with the github prefix, stdout is posted in full via
postGitHub; then, if the reply type equals slack.message, the first 39000
characters of stdout are posted to the response url. Either awaited fetch
rejecting aborts the handler. -/
def dispatchSinks (msg : Msg) (stdout : String) (githubNet slackNet : FetchOutcome) :
    List Action × Except WorkerError Unit :=
  let g : List Action × Except WorkerError Unit :=
    match msg.reply with
    | some r =>
        match r.type with
        | some t => if jsStartsWith t "github." then postGitHub r.targets stdout githubNet
                    else ([], .ok ())
        | none => ([], .ok ())
    | none => ([], .ok ())
  match g with
  | (acts, .error e) => (acts, .error e)
  | (acts, .ok _) =>
      match msg.reply with
      | some r =>
          if r.type = some "slack.message" then
            match slackNet with
            | .networkError => (acts, .error .dispatchNetworkError)
            | .response _ =>
                (acts ++ [.postSlack r.targets.response_url (jsSlice stdout 39000)], .ok ())
          else (acts, .ok ())
      | none => (acts, .ok ())

/-- The ambient inputs of one invocation: the CURSOR_API_KEY environment
variable, the uuid crypto.randomUUID() would return on this call, the
behavior of the spawned process, whether the group kill call succeeds, and
the outcome of each sink fetch. -/
structure World where
  apiKey : Option String
  uuid : String
  proc : ProcBehavior
  groupKillSucceeds : Bool
  githubNet : FetchOutcome
  slackNet : FetchOutcome
deriving DecidableEq

/-- Embeds the worker CloudEvent handler (lines 98-132): decode, require
the api key, derive the correlation id, deadline and agent name, run the
agent, throw on a non-zero exit code with the first 4000 characters of
stderr, and finally dispatch to the sinks. The first component collects
the side effects performed before the handler returned or threw. -/
def worker (event : PubSubEvent) (w : World) : List Action × Except WorkerError Unit :=
  match decode event with
  | .error e => ([], .error e)
  | .ok msg =>
      match w.apiKey with
      | none => ([], .error .missingApiKey)
      | some _ =>
          let correlationId := effectiveCorrelationId msg.correlation_id w.uuid
          let hardSeconds := effectiveHardSeconds msg.hard_seconds
          let name := effectiveAgentName msg.agentName
          match runAgent name msg correlationId hardSeconds w.proc w.groupKillSucceeds with
          | (acts, .error e) => (acts, .error e)
          | (acts, .ok r) =>
              if r.code ≠ 0 then
                (acts, .error (.cursorFailed ("cursor failed: " ++ jsSlice r.stderr 4000)))
              else
                match dispatchSinks msg r.stdout w.githubNet w.slackNet with
                | (dacts, res) => (acts ++ dacts, res)

/-- True when the string contains the path separator character, the
property the specification says must force rejection of a correlation id. -/
def containsPathSeparator (s : String) : Bool :=
  s.data.contains '/'

/-- True for the actions that are outbound sink calls. -/
def isSinkCall : Action → Bool
  | .postGitHub _ _ _ => true
  | .postSlack _ _ => true
  | _ => false

end AgentWorker

deriving instance DecidableEq for Except

namespace AgentWorker

/-- Helper: every runAgent invocation begins its trace with the recursive
mkdir of the sandbox followed by the spawn, whatever the process then does. -/
theorem runAgent_trace (name : String) (input : Msg) (cid : String) (hardSeconds : Int)
    (proc : ProcBehavior) (gk : Bool) :
    ∃ rest, (runAgent name input cid hardSeconds proc gk).1 =
      Action.mkdirRecursive (sandboxPath cid) ::
        Action.spawnAgent name input (sandboxPath cid) (sandboxPath cid) :: rest := by
  cases proc with
  | closes c out err t =>
      by_cases h : (t : Int) < hardSeconds * 1000
      · exact ⟨[], by simp [runAgent, h]⟩
      · exact ⟨watchdogKills gk, by simp [runAgent, h]⟩
  | neverCloses => exact ⟨watchdogKills gk, by simp [runAgent]⟩
  | emitsError => exact ⟨[], by simp [runAgent]⟩

/-- Helper: with the api key present and the envelope parsed, the worker
trace begins with the sandbox mkdir and the spawn derived from the message. -/
theorem worker_trace (m : Msg) (w : World) (k : String) (hk : w.apiKey = some k) :
    ∃ rest, (worker ⟨.parsed m⟩ w).1 =
      Action.mkdirRecursive (sandboxPath (effectiveCorrelationId m.correlation_id w.uuid)) ::
        Action.spawnAgent (effectiveAgentName m.agentName) m
          (sandboxPath (effectiveCorrelationId m.correlation_id w.uuid))
          (sandboxPath (effectiveCorrelationId m.correlation_id w.uuid)) :: rest := by
  obtain ⟨rest, hr⟩ := runAgent_trace (effectiveAgentName m.agentName) m
    (effectiveCorrelationId m.correlation_id w.uuid) (effectiveHardSeconds m.hard_seconds)
    w.proc w.groupKillSucceeds
  rcases hrun : runAgent (effectiveAgentName m.agentName) m
      (effectiveCorrelationId m.correlation_id w.uuid) (effectiveHardSeconds m.hard_seconds)
      w.proc w.groupKillSucceeds with ⟨acts, res⟩
  rw [hrun] at hr
  simp only at hr
  cases res with
  | error e =>
      exact ⟨rest, by simp [worker, decode, hk, hrun, hr]⟩
  | ok r =>
      by_cases hc : r.code ≠ 0
      · exact ⟨rest, by simp [worker, decode, hk, hrun, hr, hc]⟩
      · rcases hd : dispatchSinks m r.stdout w.githubNet w.slackNet with ⟨dacts, dres⟩
        exact ⟨rest ++ dacts, by simp [worker, decode, hk, hrun, hr, hc, hd]⟩

/-- Concrete message whose correlation id is a path-traversal sequence. -/
def msgC1 : Msg := ⟨some "../../etc", some "x", none, none⟩

/-- World for the C1 counterexample: key present, process exits cleanly. -/
def worldC1 : World :=
  ⟨some "k", "u", .closes (some 0) "ok" "" 5, true, .response 200, .response 200⟩

/-- C1, counterexample. The claim says that a correlation id containing a
path separator makes sandbox acquisition fail with UnsafeIdentifier and
that no directory is created. On the code, for the id ../../etc the worker
neither fails nor validates: the invocation completes normally and the
trace contains the recursive mkdir of /tmp/../../etc. -/
theorem C1_counterexample :
    containsPathSeparator "../../etc" = true ∧
    (worker ⟨.parsed msgC1⟩ worldC1).2 = .ok () ∧
    Action.mkdirRecursive "/tmp/../../etc" ∈ (worker ⟨.parsed msgC1⟩ worldC1).1 := by
  decide

/-- C1, amended. Sandbox setup at the start of runAgent performs no
validation of the correlation id at all: for every id, including ones with
path separators or traversal sequences, it creates /tmp/ followed by the
id (recursive mkdir) and spawns the process there, and the settled outcome
of runAgent does not depend on the id. -/
theorem C1_amended (name : String) (input : Msg) (cid cid' : String) (hardSeconds : Int)
    (proc : ProcBehavior) (gk : Bool) :
    (∃ rest, (runAgent name input cid hardSeconds proc gk).1 =
      Action.mkdirRecursive (sandboxPath cid) ::
        Action.spawnAgent name input (sandboxPath cid) (sandboxPath cid) :: rest) ∧
    (runAgent name input cid hardSeconds proc gk).2 =
      (runAgent name input cid' hardSeconds proc gk).2 := by
  refine ⟨runAgent_trace name input cid hardSeconds proc gk, ?_⟩
  cases proc with
  | closes c out err t => by_cases h : (t : Int) < hardSeconds * 1000 <;> simp [runAgent, h]
  | neverCloses => rfl
  | emitsError => rfl

/-- Concrete message whose payload carries no agent name at all, the
decoded form of the payload written as an empty JSON object with only a
correlation id. -/
def msgC2 : Msg := ⟨some "c2", none, none, none⟩

/-- World for the C2 counterexample and witness: key present, process
exits cleanly before the deadline. -/
def worldC2 : World :=
  ⟨some "k", "u", .closes (some 0) "" "" 5, true, .response 200, .response 200⟩

/-- C2, counterexample. The claim says a decoded payload missing
agent.name fails with Malformed and the pipeline stops. On the code,
such a payload decodes successfully, the invocation completes normally,
and the pipeline proceeds through sandbox creation and process execution
with the substituted agent name default. -/
theorem C2_counterexample :
    msgC2.agentName = none ∧
    decode ⟨.parsed msgC2⟩ = .ok msgC2 ∧
    (worker ⟨.parsed msgC2⟩ worldC2).2 = .ok () ∧
    Action.mkdirRecursive "/tmp/c2" ∈ (worker ⟨.parsed msgC2⟩ worldC2).1 ∧
    Action.spawnAgent "default" msgC2 "/tmp/c2" "/tmp/c2" ∈ (worker ⟨.parsed msgC2⟩ worldC2).1 := by
  decide

/-- C2, amended. Decoding fails with the Malformed error exactly when the
envelope data field is absent (an unparsable payload raises the JSON parse
exception instead); a payload missing agent.name is not a decode failure:
the message decodes as is and the worker proceeds to sandbox creation and
process execution with the agent name default. -/
theorem C2_amended (m : Msg) (w : World) (k : String)
    (hk : w.apiKey = some k) (hname : m.agentName = none) :
    decode ⟨PubSubData.missing⟩ = .error .malformedMessage ∧
    decode ⟨PubSubData.invalidJson⟩ = .error .jsonParseError ∧
    decode ⟨.parsed m⟩ = .ok m ∧
    Action.spawnAgent "default" m
        (sandboxPath (effectiveCorrelationId m.correlation_id w.uuid))
        (sandboxPath (effectiveCorrelationId m.correlation_id w.uuid)) ∈
      (worker ⟨.parsed m⟩ w).1 := by
  refine ⟨rfl, rfl, rfl, ?_⟩
  obtain ⟨rest, hr⟩ := worker_trace m w k hk
  have hdef : effectiveAgentName m.agentName = "default" := by
    rw [hname]; rfl
  rw [hdef] at hr
  simp [hr]

/-- C2, witness for the amended theorem at a concrete message and world. -/
theorem C2_amended_witness :
    decode ⟨PubSubData.missing⟩ = .error .malformedMessage ∧
    decode ⟨PubSubData.invalidJson⟩ = .error .jsonParseError ∧
    decode ⟨.parsed msgC2⟩ = .ok msgC2 ∧
    Action.spawnAgent "default" msgC2
        (sandboxPath (effectiveCorrelationId msgC2.correlation_id worldC2.uuid))
        (sandboxPath (effectiveCorrelationId msgC2.correlation_id worldC2.uuid)) ∈
      (worker ⟨.parsed msgC2⟩ worldC2).1 :=
  C2_amended msgC2 worldC2 "k" rfl rfl

/-- Concrete message carrying an explicit hard_seconds of zero. -/
def msgC3 : Msg := ⟨some "c3", some "x", some 0, none⟩

/-- World for the C3 counterexample: key present, process never closes. -/
def worldC3 : World :=
  ⟨some "k", "u", .neverCloses, true, .response 200, .response 200⟩

/-- C3, counterexample. The claim says a non-positive hard_seconds is
replaced by the 900 second platform default and the process never runs
under a zero deadline. On the code, nullish coalescing keeps a present
zero: the effective deadline is 0, the process is still spawned, and the
invocation rejects with the timeout error carrying 0, not 900. -/
theorem C3_counterexample :
    effectiveHardSeconds (some 0) = 0 ∧
    effectiveHardSeconds (some 0) ≠ 900 ∧
    (worker ⟨.parsed msgC3⟩ worldC3).2 = .error (.timeout 0) ∧
    Action.spawnAgent "x" msgC3 "/tmp/c3" "/tmp/c3" ∈ (worker ⟨.parsed msgC3⟩ worldC3).1 := by
  decide

/-- C3, amended. The 900 second default applies exactly when
timeouts.hard_seconds is absent; any present value, including zero or a
negative number, is used as the deadline unchanged. In particular an
absent field together with a process that never closes yields the timeout
error carrying 900. -/
theorem C3_amended (cid? nm? : Option String) (rp? : Option Reply) (k uuid : String)
    (gk : Bool) (gh sl : FetchOutcome) (v : Int) :
    effectiveHardSeconds none = 900 ∧
    effectiveHardSeconds (some v) = v ∧
    (worker ⟨.parsed ⟨cid?, nm?, none, rp?⟩⟩ ⟨some k, uuid, .neverCloses, gk, gh, sl⟩).2 =
      .error (.timeout 900) := by
  refine ⟨rfl, rfl, ?_⟩
  simp [worker, decode, runAgent, effectiveHardSeconds]

/-- The spawned process has not exited when the hardSeconds deadline
expires: either it never closes, or its close event arrives no earlier
than hardSeconds * 1000 milliseconds after the spawn. -/
def stillRunningAtDeadline (proc : ProcBehavior) (hardSeconds : Int) : Prop :=
  proc = .neverCloses ∨
    ∃ c out err t, proc = .closes c out err t ∧ hardSeconds * 1000 ≤ (t : Int)

/-- C4. Whenever the spawned process has not exited when the deadline
expires, runAgent rejects with the timeout error and never resolves with a
normal execution result; the watchdog always issues the SIGKILL to the
whole process group, and kills the top-level process directly exactly when
the group signal fails. -/
theorem C4_deadline_kill (name : String) (input : Msg) (cid : String) (hardSeconds : Int)
    (proc : ProcBehavior) (gk : Bool)
    (hp : stillRunningAtDeadline proc hardSeconds) :
    (runAgent name input cid hardSeconds proc gk).2 = .error (.timeout hardSeconds) ∧
    (∀ r : ExecResult, (runAgent name input cid hardSeconds proc gk).2 ≠ .ok r) ∧
    Action.killGroup ∈ (runAgent name input cid hardSeconds proc gk).1 ∧
    (gk = false ↔ Action.killProc ∈ (runAgent name input cid hardSeconds proc gk).1) := by
  have hmain : (runAgent name input cid hardSeconds proc gk).1 =
      [Action.mkdirRecursive (sandboxPath cid),
        Action.spawnAgent name input (sandboxPath cid) (sandboxPath cid)] ++
        watchdogKills gk ∧
      (runAgent name input cid hardSeconds proc gk).2 = .error (.timeout hardSeconds) := by
    rcases hp with hp | ⟨c, out, err, t, hp, ht⟩
    · subst hp; exact ⟨rfl, rfl⟩
    · subst hp
      have hlt : ¬((t : Int) < hardSeconds * 1000) := not_lt.mpr ht
      exact ⟨by simp [runAgent, hlt], by simp [runAgent, hlt]⟩
  obtain ⟨htrace, hres⟩ := hmain
  refine ⟨hres, fun r hr => by rw [hres] at hr; exact Except.noConfusion hr, ?_, ?_⟩
  · rw [htrace]
    cases gk <;> simp [watchdogKills]
  · rw [htrace]
    cases gk <;> simp [watchdogKills]

/-- C4, witness: a process that never closes under a 1 second deadline,
with the group kill call failing, is rejected as a timeout after the group
kill and the direct fallback kill. -/
theorem C4_deadline_kill_witness :
    (runAgent "x" msgC3 "c" 1 .neverCloses false).2 = .error (.timeout 1) ∧
    (∀ r : ExecResult, (runAgent "x" msgC3 "c" 1 .neverCloses false).2 ≠ .ok r) ∧
    Action.killGroup ∈ (runAgent "x" msgC3 "c" 1 .neverCloses false).1 ∧
    (false = false ↔ Action.killProc ∈ (runAgent "x" msgC3 "c" 1 .neverCloses false).1) :=
  C4_deadline_kill "x" msgC3 "c" 1 .neverCloses false (Or.inl rfl)

/-- C10. A close event before the deadline carrying a null exit code (the
process was terminated by a signal) resolves runAgent with exit code 1,
and the worker therefore classifies such a run as a failure, throwing the
cursor failed error, never treating it as success. -/
theorem C10_null_exit_code (cid? nm? : Option String) (hs? : Option Int) (rp? : Option Reply)
    (k uuid out err : String) (tm : Nat) (gk : Bool) (gh sl : FetchOutcome)
    (htm : (tm : Int) < effectiveHardSeconds hs? * 1000) :
    (runAgent (effectiveAgentName nm?) ⟨cid?, nm?, hs?, rp?⟩
        (effectiveCorrelationId cid? uuid) (effectiveHardSeconds hs?)
        (.closes none out err tm) gk).2 = .ok ⟨1, out, err⟩ ∧
    (worker ⟨.parsed ⟨cid?, nm?, hs?, rp?⟩⟩
        ⟨some k, uuid, .closes none out err tm, gk, gh, sl⟩).2 =
      .error (.cursorFailed ("cursor failed: " ++ jsSlice err 4000)) := by
  constructor
  · simp [runAgent, htm]
  · simp [worker, decode, runAgent, htm]

/-- C10, witness at a concrete invocation: null exit code, close at 5 ms,
default deadline. -/
theorem C10_null_exit_code_witness :
    (runAgent (effectiveAgentName (some "x")) ⟨some "c", some "x", none, none⟩
        (effectiveCorrelationId (some "c") "u") (effectiveHardSeconds none)
        (.closes none "out" "err" 5) true).2 = .ok ⟨1, "out", "err"⟩ ∧
    (worker ⟨.parsed ⟨some "c", some "x", none, none⟩⟩
        ⟨some "k", "u", .closes none "out" "err" 5, true, .response 200, .response 200⟩).2 =
      .error (.cursorFailed ("cursor failed: " ++ jsSlice "err" 4000)) :=
  C10_null_exit_code (some "c") (some "x") none none "k" "u" "out" "err" 5 true
    (.response 200) (.response 200) (by decide)

/-- C6. When the process exits before the deadline with a non-zero code,
the worker throws the cursor failed error whose message carries exactly
the first 4000 characters of stderr (a prefix of the captured stderr, of
length at most 4000), and no action of the invocation is an outbound sink
call. -/
theorem C6_nonzero_exit (cid? nm? : Option String) (hs? : Option Int) (rp? : Option Reply)
    (k uuid out err : String) (c : Int) (tm : Nat) (gk : Bool) (gh sl : FetchOutcome)
    (hc : c ≠ 0) (htm : (tm : Int) < effectiveHardSeconds hs? * 1000) :
    (worker ⟨.parsed ⟨cid?, nm?, hs?, rp?⟩⟩
        ⟨some k, uuid, .closes (some c) out err tm, gk, gh, sl⟩).2 =
      .error (.cursorFailed ("cursor failed: " ++ jsSlice err 4000)) ∧
    (jsSlice err 4000).length ≤ 4000 ∧
    (∃ rest, err.data = (jsSlice err 4000).data ++ rest) ∧
    (∀ a ∈ (worker ⟨.parsed ⟨cid?, nm?, hs?, rp?⟩⟩
        ⟨some k, uuid, .closes (some c) out err tm, gk, gh, sl⟩).1, isSinkCall a = false) := by
  refine ⟨?_, ?_, ⟨err.data.drop 4000, (List.take_append_drop 4000 err.data).symm⟩, ?_⟩
  · simp [worker, decode, runAgent, htm, hc]
  · show (err.data.take 4000).length ≤ 4000
    rw [List.length_take]
    exact min_le_left _ _
  · intro a ha
    simp [worker, decode, runAgent, htm, hc] at ha
    rcases ha with ha | ha <;> subst ha <;> rfl

/-- C6, witness at a concrete failing run: exit code 2, stderr boom. -/
theorem C6_nonzero_exit_witness :
    (worker ⟨.parsed ⟨some "c", some "x", none, none⟩⟩
        ⟨some "k", "u", .closes (some 2) "out" "boom" 5, true, .response 200, .response 200⟩).2 =
      .error (.cursorFailed ("cursor failed: " ++ jsSlice "boom" 4000)) ∧
    (jsSlice "boom" 4000).length ≤ 4000 ∧
    (∃ rest, "boom".data = (jsSlice "boom" 4000).data ++ rest) ∧
    (∀ a ∈ (worker ⟨.parsed ⟨some "c", some "x", none, none⟩⟩
        ⟨some "k", "u", .closes (some 2) "out" "boom" 5, true, .response 200, .response 200⟩).1,
      isSinkCall a = false) :=
  C6_nonzero_exit (some "c") (some "x") none none "k" "u" "out" "boom" 2 5 true
    (.response 200) (.response 200) (by decide) (by decide)

/-- Concrete message with a github reply descriptor. -/
def msgC5 : Msg :=
  ⟨some "c5", some "x", none, some ⟨some "github.pr_review", ⟨"o/r", "1", "tok", "u"⟩⟩⟩

/-- World for the C5 counterexample: the process exits with code 0 before
the deadline, and the GitHub fetch fails with a network error. -/
def worldC5 : World :=
  ⟨some "k", "u", .closes (some 0) "out" "" 5, true, .networkError, .response 200⟩

/-- C5, counterexample. The claim says a dispatch failure after a
successful execution does not fail the task and is reported distinctly as
DispatchOnly. On the code, the awaited fetch rejection propagates out of
the handler: the invocation fails with the dispatch network error instead
of completing normally, so the message is redelivered. -/
theorem C5_counterexample :
    worldC5.proc = .closes (some 0) "out" "" 5 ∧
    (worker ⟨.parsed msgC5⟩ worldC5).2 = .error .dispatchNetworkError ∧
    (worker ⟨.parsed msgC5⟩ worldC5).2 ≠ .ok () := by
  decide

/-- C5, amended. After a successful execution with a github reply
descriptor, a network error in the dispatch fetch propagates and fails the
whole worker invocation, with no distinct DispatchOnly report; a non-2xx
sink response, by contrast, is silently ignored (the response status is
never inspected) and the invocation completes normally. -/
theorem C5_amended (cid? nm? : Option String) (hs? : Option Int) (tg : Targets)
    (t k uuid out err : String) (tm : Nat) (gk : Bool) (sl : FetchOutcome) (s : Nat)
    (ht : jsStartsWith t "github." = true)
    (htm : (tm : Int) < effectiveHardSeconds hs? * 1000) :
    (worker ⟨.parsed ⟨cid?, nm?, hs?, some ⟨some t, tg⟩⟩⟩
        ⟨some k, uuid, .closes (some 0) out err tm, gk, .networkError, sl⟩).2 =
      .error .dispatchNetworkError ∧
    (worker ⟨.parsed ⟨cid?, nm?, hs?, some ⟨some t, tg⟩⟩⟩
        ⟨some k, uuid, .closes (some 0) out err tm, gk, .response s, sl⟩).2 = .ok () := by
  have hts : t ≠ "slack.message" := by
    intro h
    rw [h] at ht
    exact absurd ht (by decide)
  constructor
  · simp [worker, decode, runAgent, htm, dispatchSinks, ht, postGitHub]
  · simp [worker, decode, runAgent, htm, dispatchSinks, ht, postGitHub, hts]

/-- C5, witness for the amended theorem at a concrete task. -/
theorem C5_amended_witness :
    (worker ⟨.parsed ⟨some "c5", some "x", none, some ⟨some "github.pr_review",
        ⟨"o/r", "1", "tok", "u"⟩⟩⟩⟩
        ⟨some "k", "u", .closes (some 0) "out" "" 5, true, .networkError, .response 200⟩).2 =
      .error .dispatchNetworkError ∧
    (worker ⟨.parsed ⟨some "c5", some "x", none, some ⟨some "github.pr_review",
        ⟨"o/r", "1", "tok", "u"⟩⟩⟩⟩
        ⟨some "k", "u", .closes (some 0) "out" "" 5, true, .response 500, .response 200⟩).2 =
      .ok () :=
  C5_amended (some "c5") (some "x") none ⟨"o/r", "1", "tok", "u"⟩ "github.pr_review"
    "k" "u" "out" "" 5 true (.response 200) 500 (by decide) (by decide)

/-- C8. For a successful execution with a slack.message reply descriptor,
the dispatched text is stdout cut to the fixed 39000 character platform
bound: the posted payload is exactly the first 39000 characters, and when
stdout is longer than the bound (for instance 50000 characters) the
payload is strictly shorter than the full text; the invocation still
completes normally, so the truncation raises no error. -/
theorem C8_slack_truncation (cid? nm? : Option String) (hs? : Option Int) (tg : Targets)
    (k uuid out err : String) (tm : Nat) (gk : Bool) (gh : FetchOutcome) (s : Nat)
    (htm : (tm : Int) < effectiveHardSeconds hs? * 1000)
    (hlen : 39000 < out.length) :
    (worker ⟨.parsed ⟨cid?, nm?, hs?, some ⟨some "slack.message", tg⟩⟩⟩
        ⟨some k, uuid, .closes (some 0) out err tm, gk, gh, .response s⟩).2 = .ok () ∧
    Action.postSlack tg.response_url (jsSlice out 39000) ∈
      (worker ⟨.parsed ⟨cid?, nm?, hs?, some ⟨some "slack.message", tg⟩⟩⟩
        ⟨some k, uuid, .closes (some 0) out err tm, gk, gh, .response s⟩).1 ∧
    (jsSlice out 39000).length = 39000 ∧
    (jsSlice out 39000).length < out.length := by
  have hng : jsStartsWith "slack.message" "github." = false := by decide
  have hlen' : 39000 < out.data.length := hlen
  have htake : (jsSlice out 39000).length = 39000 := by
    show (out.data.take 39000).length = 39000
    rw [List.length_take]
    omega
  refine ⟨?_, ?_, htake, ?_⟩
  · simp [worker, decode, runAgent, htm, dispatchSinks, hng]
  · simp [worker, decode, runAgent, htm, dispatchSinks, hng]
  · rw [htake]; exact hlen

/-- C8, witness: stdout of 50000 characters is cut to 39000. -/
theorem C8_slack_truncation_witness :
    (worker ⟨.parsed ⟨some "c", some "x", none, some ⟨some "slack.message",
        ⟨"", "", "", "hook"⟩⟩⟩⟩
        ⟨some "k", "u", .closes (some 0) (String.mk (List.replicate 50000 'a')) "" 5,
          true, .response 200, .response 200⟩).2 = .ok () ∧
    Action.postSlack "hook" (jsSlice (String.mk (List.replicate 50000 'a')) 39000) ∈
      (worker ⟨.parsed ⟨some "c", some "x", none, some ⟨some "slack.message",
        ⟨"", "", "", "hook"⟩⟩⟩⟩
        ⟨some "k", "u", .closes (some 0) (String.mk (List.replicate 50000 'a')) "" 5,
          true, .response 200, .response 200⟩).1 ∧
    (jsSlice (String.mk (List.replicate 50000 'a')) 39000).length = 39000 ∧
    (jsSlice (String.mk (List.replicate 50000 'a')) 39000).length <
      (String.mk (List.replicate 50000 'a')).length :=
  C8_slack_truncation (some "c") (some "x") none ⟨"", "", "", "hook"⟩ "k" "u"
    (String.mk (List.replicate 50000 'a')) "" 5 true (.response 200) 200 (by decide)
    (by show 39000 < (List.replicate 50000 'a').length; rw [List.length_replicate]; omega)

/-- C9. Any reply type that merely starts with the github prefix, whatever
its suffix, routes to the GitHub issue-comments post, and the posted body
is the full captured stdout with no truncation; no slack post is made and
the invocation completes normally. -/
theorem C9_github_any_suffix (cid? nm? : Option String) (hs? : Option Int) (tg : Targets)
    (t k uuid out err : String) (tm : Nat) (gk : Bool) (s : Nat) (sl : FetchOutcome)
    (ht : jsStartsWith t "github." = true)
    (htm : (tm : Int) < effectiveHardSeconds hs? * 1000) :
    Action.postGitHub tg.repo tg.pr out ∈
      (worker ⟨.parsed ⟨cid?, nm?, hs?, some ⟨some t, tg⟩⟩⟩
        ⟨some k, uuid, .closes (some 0) out err tm, gk, .response s, sl⟩).1 ∧
    (worker ⟨.parsed ⟨cid?, nm?, hs?, some ⟨some t, tg⟩⟩⟩
        ⟨some k, uuid, .closes (some 0) out err tm, gk, .response s, sl⟩).2 = .ok () ∧
    (∀ u text, Action.postSlack u text ∉
      (worker ⟨.parsed ⟨cid?, nm?, hs?, some ⟨some t, tg⟩⟩⟩
        ⟨some k, uuid, .closes (some 0) out err tm, gk, .response s, sl⟩).1) := by
  have hts : t ≠ "slack.message" := by
    intro h
    rw [h] at ht
    exact absurd ht (by decide)
  refine ⟨?_, ?_, ?_⟩
  · simp [worker, decode, runAgent, htm, dispatchSinks, ht, postGitHub, hts]
  · simp [worker, decode, runAgent, htm, dispatchSinks, ht, postGitHub, hts]
  · intro u text
    simp [worker, decode, runAgent, htm, dispatchSinks, ht, postGitHub, hts]

/-- C9, witness: a reply type with the github prefix and a suffix other
than pr_review still posts the full stdout to the issue-comments sink. -/
theorem C9_github_any_suffix_witness :
    Action.postGitHub "o/r" "7" "full stdout" ∈
      (worker ⟨.parsed ⟨some "c", some "x", none, some ⟨some "github.issue_triage",
          ⟨"o/r", "7", "tok", ""⟩⟩⟩⟩
        ⟨some "k", "u", .closes (some 0) "full stdout" "" 5, true, .response 201,
          .response 200⟩).1 ∧
    (worker ⟨.parsed ⟨some "c", some "x", none, some ⟨some "github.issue_triage",
          ⟨"o/r", "7", "tok", ""⟩⟩⟩⟩
        ⟨some "k", "u", .closes (some 0) "full stdout" "" 5, true, .response 201,
          .response 200⟩).2 = .ok () ∧
    (∀ u text, Action.postSlack u text ∉
      (worker ⟨.parsed ⟨some "c", some "x", none, some ⟨some "github.issue_triage",
          ⟨"o/r", "7", "tok", ""⟩⟩⟩⟩
        ⟨some "k", "u", .closes (some 0) "full stdout" "" 5, true, .response 201,
          .response 200⟩).1) :=
  C9_github_any_suffix (some "c") (some "x") none ⟨"o/r", "7", "tok", ""⟩
    "github.issue_triage" "k" "u" "full stdout" "" 5 true 201 (.response 200)
    (by decide) (by decide)

/-- C7. When correlation_id is absent from the envelope, the worker uses
the freshly generated uuid of that call as the correlation id: it is the
uuid itself (hence non-empty whenever the generator returns a non-empty
string, and distinct across two calls whenever the generated uuids are),
and the sandbox of the invocation is named by it. -/
theorem C7_generated_id (nm? : Option String) (hs? : Option Int) (rp? : Option Reply)
    (k uuid uuid' : String) (proc : ProcBehavior) (gk : Bool) (gh sl : FetchOutcome)
    (h1 : uuid ≠ "") (h2 : uuid ≠ uuid') :
    effectiveCorrelationId none uuid = uuid ∧
    effectiveCorrelationId none uuid ≠ "" ∧
    effectiveCorrelationId none uuid ≠ effectiveCorrelationId none uuid' ∧
    (∃ rest, (worker ⟨.parsed ⟨none, nm?, hs?, rp?⟩⟩ ⟨some k, uuid, proc, gk, gh, sl⟩).1 =
      Action.mkdirRecursive ("/tmp/" ++ uuid) :: rest) := by
  refine ⟨rfl, h1, h2, ?_⟩
  obtain ⟨rest, hr⟩ := worker_trace ⟨none, nm?, hs?, rp?⟩ ⟨some k, uuid, proc, gk, gh, sl⟩ k rfl
  exact ⟨_, hr⟩

/-- C7, witness: two distinct generated uuids yield distinct, non-empty
correlation ids, and the sandbox is named by the generated uuid. -/
theorem C7_generated_id_witness :
    effectiveCorrelationId none "uuid-a" = "uuid-a" ∧
    effectiveCorrelationId none "uuid-a" ≠ "" ∧
    effectiveCorrelationId none "uuid-a" ≠ effectiveCorrelationId none "uuid-b" ∧
    (∃ rest, (worker ⟨.parsed ⟨none, some "x", none, none⟩⟩
        ⟨some "k", "uuid-a", .closes (some 0) "" "" 5, true, .response 200, .response 200⟩).1 =
      Action.mkdirRecursive ("/tmp/" ++ "uuid-a") :: rest) :=
  C7_generated_id (some "x") none none "k" "uuid-a" "uuid-b"
    (.closes (some 0) "" "" 5) true (.response 200) (.response 200)
    (by decide) (by decide)

end AgentWorker
